import Mathlib

/-!
Verification of the file-backed JSON resource server in `app.py`
(Flask application serving a dashboard page and three JSON endpoints).

The development shallowly embeds the program:
* JSON values and the semantics of the Python json module scanner
  (`json.load`) as an executable code-point parser;
* filesystem state per path (absent, permission-denied, or textual content);
* Python exception classes and clause matching for `try`/`except`;
* the three copy-pasted route handlers, the index route, and the Flask
  dispatch that turns an uncaught exception into a generic 500 response.

Handlers additionally return a trace of filesystem events so that scoping
(handle release) and frame (read-only) properties can be stated.
-/

/-- Code points of a string, the form the scanner works on.  Working on
code points (rather than `Char`) keeps the embedding faithful to Python
strings, which admit lone surrogates. -/
def codes (s : String) : List Nat :=
  s.data.map Char.toNat

/-- JSON whitespace accepted by the Python json module scanner:
space, tab, line feed, carriage return. -/
def wsChar (c : Nat) : Bool :=
  c = 32 || c = 9 || c = 10 || c = 13

/-- Drop leading JSON whitespace, as the scanner regex does between tokens. -/
def dropWs : List Nat → List Nat
  | [] => []
  | c :: cs => if wsChar c then dropWs cs else c :: cs

def isDigit (c : Nat) : Bool :=
  48 ≤ c && c ≤ 57

/-- Split off a maximal run of decimal digits. -/
def takeDigits : List Nat → List Nat × List Nat
  | [] => ([], [])
  | c :: cs =>
    if isDigit c then
      let r := takeDigits cs
      (c :: r.1, r.2)
    else ([], c :: cs)

/-- Numeric value of a digit-code run. -/
def digitsVal (ds : List Nat) : Nat :=
  ds.foldl (fun a c => a * 10 + (c - 48)) 0

/-- Value of one hexadecimal digit code, if it is one. -/
def hexVal (c : Nat) : Option Nat :=
  if 48 ≤ c && c ≤ 57 then some (c - 48)
  else if 97 ≤ c && c ≤ 102 then some (c - 87)
  else if 65 ≤ c && c ≤ 70 then some (c - 55)
  else none

/-- Read exactly four hexadecimal digits, as in a `\uXXXX` escape. -/
def hex4 : List Nat → Option (Nat × List Nat)
  | c1 :: c2 :: c3 :: c4 :: rest =>
    match hexVal c1, hexVal c2, hexVal c3, hexVal c4 with
    | some a, some b, some c, some d =>
      some (((a * 16 + b) * 16 + c) * 16 + d, rest)
    | _, _, _, _ => none
  | _ => none

/-- JSON values as produced by the Python json module.  Strings (and object
keys) are code-point lists.  Integer literals become `int`; literals with a
fraction or exponent become `float`, kept as an exact decimal
`m * 10 ^ e` (the IEEE rounding Python applies is not modelled; no claim
depends on float identity).  The module also accepts the non-standard
constants NaN, Infinity and -Infinity by default. -/
inductive Json where
  | null
  | bool (b : Bool)
  | int (n : Int)
  | float (m : Int) (e : Int)
  | nan
  | inf (neg : Bool)
  | str (cs : List Nat)
  | arr (xs : List Json)
  | obj (kvs : List (List Nat × Json))

/-- Python dict insertion: a repeated key overwrites the stored value in
place, keeping the position of its first occurrence. -/
def dictInsert (kvs : List (List Nat × Json)) (k : List Nat) (v : Json) :
    List (List Nat × Json) :=
  match kvs with
  | [] => [(k, v)]
  | (k', v') :: rest =>
    if k = k' then (k', v) :: rest else (k', v') :: dictInsert rest k v

/-- Single-character string escapes of the JSON grammar. -/
def escChar (e : Nat) : Option Nat :=
  if e = 34 then some 34        -- quotation mark
  else if e = 92 then some 92   -- backslash
  else if e = 47 then some 47   -- solidus
  else if e = 98 then some 8    -- \b
  else if e = 102 then some 12  -- \f
  else if e = 110 then some 10  -- \n
  else if e = 114 then some 13  -- \r
  else if e = 116 then some 9   -- \t
  else none

/-- Prepend a code point to the string being scanned. -/
def consStr (c : Nat) (r : Option (List Nat × List Nat)) :
    Option (List Nat × List Nat) :=
  r.map (fun p => (c :: p.1, p.2))

/-- Scan a JSON string body after the opening quote, in the strict mode the
json module uses: a raw control character is an error, escapes are the
eight single-character ones plus `\uXXXX`, and a high surrogate followed
by a `\u`-escaped low surrogate combines into one code point. -/
def scanString : Nat → List Nat → Option (List Nat × List Nat)
  | 0, _ => none
  | fuel + 1, s =>
    match s with
    | [] => none
    | c :: cs =>
      if c = 34 then some ([], cs)
      else if c = 92 then
        match cs with
        | [] => none
        | e :: cs2 =>
          if e = 117 then
            match hex4 cs2 with
            | none => none
            | some (n, cs3) =>
              if 0xd800 ≤ n && n ≤ 0xdbff then
                match cs3 with
                | 92 :: 117 :: cs4 =>
                  match hex4 cs4 with
                  | none => none
                  | some (n2, cs5) =>
                    if 0xdc00 ≤ n2 && n2 ≤ 0xdfff then
                      consStr (0x10000 + (n - 0xd800) * 1024 + (n2 - 0xdc00))
                        (scanString fuel cs5)
                    else consStr n (scanString fuel cs3)
                | _ => consStr n (scanString fuel cs3)
              else consStr n (scanString fuel cs3)
          else
            match escChar e with
            | some c2 => consStr c2 (scanString fuel cs2)
            | none => none
      else if c < 32 then none
      else consStr c (scanString fuel cs)

/-- Match a literal keyword tail, returning what follows it. -/
def stripLit : List Nat → List Nat → Option (List Nat)
  | [], s => some s
  | l :: ls, c :: cs => if l = c then stripLit ls cs else none
  | _ :: _, [] => none

def applySign (neg : Bool) (n : Nat) : Int :=
  if neg then -(n : Int) else (n : Int)

/-- Continue a number after its integer-part digits: an optional fraction
(dot plus one or more digits) and an optional exponent, exactly the
optional groups of the scanner regex — a dot or exponent letter not
followed by digits is left unconsumed, as the regex leaves it. -/
def numTail (neg : Bool) (ipDigits : List Nat) (s : List Nat) :
    Json × List Nat :=
  let frPair : Option (List Nat) × List Nat :=
    match s with
    | 46 :: cs =>
      match takeDigits cs with
      | ([], _) => (none, s)
      | (ds, rest) => (some ds, rest)
    | _ => (none, s)
  let fr := frPair.1
  let s1 := frPair.2
  let exPair : Option Int × List Nat :=
    match s1 with
    | c :: cs =>
      if c = 101 || c = 69 then
        let signPair : Bool × List Nat :=
          match cs with
          | 45 :: r => (true, r)
          | 43 :: r => (false, r)
          | _ => (false, cs)
        match takeDigits signPair.2 with
        | ([], _) => (none, s1)
        | (ds, rest) => (some (applySign signPair.1 (digitsVal ds)), rest)
      else (none, s1)
    | [] => (none, s1)
  let ex := exPair.1
  let s2 := exPair.2
  match fr, ex with
  | none, none => (Json.int (applySign neg (digitsVal ipDigits)), s2)
  | _, _ =>
    (Json.float (applySign neg (digitsVal (ipDigits ++ fr.getD [])))
      ((ex.getD 0) - ((fr.getD []).length : Int)), s2)

/-- Scan a number literal: an optional minus, then `0` or a nonzero digit
followed by digits (no leading zeros), then `numTail`. -/
def scanNumber (s : List Nat) : Option (Json × List Nat) :=
  let negPair : Bool × List Nat :=
    match s with
    | 45 :: r => (true, r)
    | _ => (false, s)
  match negPair.2 with
  | c :: cs =>
    if c = 48 then some (numTail negPair.1 [48] cs)
    else if 49 ≤ c && c ≤ 57 then
      let r := takeDigits cs
      some (numTail negPair.1 (c :: r.1) r.2)
    else none
  | [] => none

mutual

/-- One step of the json module scanner `scan_once`: dispatch on the first
code point to a string, object, array, keyword, number, or non-standard
constant; anything else fails (ends in a decode error). -/
def scanValue : Nat → List Nat → Option (Json × List Nat)
  | 0, _ => none
  | fuel + 1, s =>
    match s with
    | [] => none
    | c :: cs =>
      if c = 34 then
        (scanString (cs.length + 1) cs).map (fun p => (Json.str p.1, p.2))
      else if c = 123 then
        match dropWs cs with
        | 125 :: rest => some (Json.obj [], rest)
        | s1 => objectItems fuel s1 []
      else if c = 91 then
        match dropWs cs with
        | 93 :: rest => some (Json.arr [], rest)
        | s1 => arrayItems fuel s1 []
      else if c = 110 then
        (stripLit (codes "ull") cs).map (fun r => (Json.null, r))
      else if c = 116 then
        (stripLit (codes "rue") cs).map (fun r => (Json.bool true, r))
      else if c = 102 then
        (stripLit (codes "alse") cs).map (fun r => (Json.bool false, r))
      else if c = 78 then
        (stripLit (codes "aN") cs).map (fun r => (Json.nan, r))
      else if c = 73 then
        (stripLit (codes "nfinity") cs).map (fun r => (Json.inf false, r))
      else if c = 45 then
        match scanNumber s with
        | some r => some r
        | none => (stripLit (codes "Infinity") cs).map (fun r => (Json.inf true, r))
      else if isDigit c then scanNumber s
      else none

/-- Elements of a non-empty array: a value, then either `]` closing the
array or a comma and further elements. -/
def arrayItems : Nat → List Nat → List Json → Option (Json × List Nat)
  | 0, _, _ => none
  | fuel + 1, s, acc =>
    match scanValue fuel s with
    | none => none
    | some (v, rest) =>
      match dropWs rest with
      | 93 :: r2 => some (Json.arr (acc ++ [v]), r2)
      | 44 :: r2 => arrayItems fuel (dropWs r2) (acc ++ [v])
      | _ => none

/-- Members of a non-empty object: a quoted key, a colon, a value, then
either `}` or a comma and further members; a repeated key overwrites. -/
def objectItems : Nat → List Nat → List (List Nat × Json) →
    Option (Json × List Nat)
  | 0, _, _ => none
  | fuel + 1, s, acc =>
    match s with
    | 34 :: cs =>
      match scanString (cs.length + 1) cs with
      | none => none
      | some (k, r1) =>
        match dropWs r1 with
        | 58 :: r3 =>
          match scanValue fuel (dropWs r3) with
          | none => none
          | some (v, r5) =>
            match dropWs r5 with
            | 125 :: r7 => some (Json.obj (dictInsert acc k v), r7)
            | 44 :: r7 => objectItems fuel (dropWs r7) (dictInsert acc k v)
            | _ => none
        | _ => none
    | _ => none

end

/-- `raw_decode`: skip leading whitespace and scan one JSON value.  The
fuel bound exceeds the recursion depth reachable on the input, so it never
runs out on the lists the scanner is actually applied to. -/
def scanTop (s : List Nat) : Option (Json × List Nat) :=
  scanValue (4 * s.length + 4) (dropWs s)

/-- `json.loads` on code points: decode one value, then require that only
whitespace remains (otherwise the module raises Extra data, a
`JSONDecodeError`). -/
def parseJson (s : List Nat) : Option Json :=
  match scanTop s with
  | none => none
  | some (v, rest) => if dropWs rest = [] then some v else none

/-! ## Filesystem, exceptions, and the Flask application -/

/-- State of one path of the local filesystem: the file may be absent
(`open` raises FileNotFoundError), unreadable for lack of permission
(`open` raises PermissionError), or present with textual content. -/
inductive FileState where
  | absent
  | permissionDenied
  | content (text : String)
deriving DecidableEq

/-- The filesystem the request handlers read: a state for every path. -/
abbrev FileSystem := String → FileState

/-- The Python exceptions that can arise in the handlers. -/
inductive PyExc where
  | fileNotFoundError
  | permissionError
  | jsonDecodeError
deriving DecidableEq

/-- Exception classes named in the program or relevant to it.  An
`except C` clause catches a raised exception whose class is `C` or a
subclass of `C`: FileNotFoundError and PermissionError are distinct
sibling subclasses of OSError, and JSONDecodeError is a subclass of
ValueError. -/
inductive ExcClass where
  | FileNotFoundError
  | OSError
  | JSONDecodeError
  | ValueError
deriving DecidableEq

/-- Python exception-clause matching. -/
def catches : ExcClass → PyExc → Bool
  | .FileNotFoundError, .fileNotFoundError => true
  | .FileNotFoundError, _ => false
  | .OSError, .fileNotFoundError => true
  | .OSError, .permissionError => true
  | .OSError, _ => false
  | .JSONDecodeError, .jsonDecodeError => true
  | .JSONDecodeError, _ => false
  | .ValueError, .jsonDecodeError => true
  | .ValueError, _ => false

/-- Response bodies: a jsonify JSON value, the rendered page of a
template, or the generic error page the framework produces for an
exception no handler caught. -/
inductive Body where
  | json (v : Json)
  | page (template : String)
  | errorHtml

/-- An HTTP response: status code and body. -/
structure Response where
  status : Nat
  body : Body

/-- Filesystem events a handler may perform.  `wrote` and `created` never
occur in this program; they are part of the type so that being read-only
is a statement about traces and not true by type. -/
inductive FsEvent where
  | opened (p : String)
  | closed (p : String)
  | wrote (p : String) (text : String)
  | created (p : String)
deriving DecidableEq

/-- Whether a path string starts with a slash (`posixpath.join` then
discards the first argument). -/
def startsSlash (s : String) : Bool :=
  match s.data with
  | [] => false
  | c :: _ => c == '/'

/-- Whether a path string ends with a slash. -/
def endsSlash (s : String) : Bool :=
  match s.data.getLast? with
  | some c => c == '/'
  | none => false

/-- `os.path.join` (posix) on two arguments, as the program uses it. -/
def os_path_join (a b : String) : String :=
  if startsSlash b then b
  else if a = "" || endsSlash a then a ++ b
  else a ++ "/" ++ b

/-- `DATA_DIR`: the `data` directory next to app.py.  The directory
containing app.py is computed from the environment at startup and is a
parameter `appDir` of the embedding. -/
def DATA_DIR (appDir : String) : String :=
  os_path_join appDir "data"

/-- `TEMPLATES_DIR`: the `templates` directory next to app.py. -/
def TEMPLATES_DIR (appDir : String) : String :=
  os_path_join appDir "templates"

/-- `with open(p) as f: data = json.load(f)` run against filesystem `fs`:
on an absent path `open` raises FileNotFoundError and on a
permission-denied path it raises PermissionError, in both cases before any
handle exists; on a present file the handle is opened, the full text is
parsed as one JSON value, and the `with` block closes the handle on both
exit paths — normal completion and the JSONDecodeError raise.  Returns
the outcome together with the trace of filesystem events. -/
def with_open_json_load (fs : FileSystem) (p : String) :
    Except PyExc Json × List FsEvent :=
  match fs p with
  | .absent => (.error .fileNotFoundError, [])
  | .permissionDenied => (.error .permissionError, [])
  | .content text =>
    (match parseJson (codes text) with
     | some v => .ok v
     | none => .error .jsonDecodeError,
     [.opened p, .closed p])

/-- `try`/`except` with a list of except clauses, each returning a fixed
response: the first clause whose class catches the raised exception
produces that response; an uncaught exception propagates. -/
def pyTry (body : Except PyExc Response)
    (clauses : List (ExcClass × Response)) : Except PyExc Response :=
  match body with
  | .ok r => .ok r
  | .error e =>
    match clauses.find? (fun cl => catches cl.1 e) with
    | some cl => .ok cl.2
    | none => .error e

/-- `jsonify({"error": msg}), status`: the error responses the handlers
build. -/
def errorResponse (msg : String) (status : Nat) : Response :=
  { status := status
    body := .json (Json.obj [(codes "error", Json.str (codes msg))]) }

/-- The `/api/marketShare` handler `get_market_share`: read
`DATA_DIR/marketShare.json`, parse it, and return it with status 200;
`except FileNotFoundError` yields 404 and `except json.JSONDecodeError`
yields 500.  Instrumented with the trace of filesystem events. -/
def get_market_share (appDir : String) (fs : FileSystem) :
    Except PyExc Response × List FsEvent :=
  let r := with_open_json_load fs (os_path_join (DATA_DIR appDir) "marketShare.json")
  (pyTry (r.1.map (fun v => { status := 200, body := Body.json v }))
    [(.FileNotFoundError, errorResponse "Data file not found" 404),
     (.JSONDecodeError, errorResponse "Error decoding JSON" 500)],
   r.2)

/-- The `/api/revenueTrends` handler `get_revenue_trends`: identical to
`get_market_share` except for the file name. -/
def get_revenue_trends (appDir : String) (fs : FileSystem) :
    Except PyExc Response × List FsEvent :=
  let r := with_open_json_load fs (os_path_join (DATA_DIR appDir) "revenueTrends.json")
  (pyTry (r.1.map (fun v => { status := 200, body := Body.json v }))
    [(.FileNotFoundError, errorResponse "Data file not found" 404),
     (.JSONDecodeError, errorResponse "Error decoding JSON" 500)],
   r.2)

/-- The `/api/marketSegmentation` handler `get_market_segmentation`:
identical to `get_market_share` except for the file name. -/
def get_market_segmentation (appDir : String) (fs : FileSystem) :
    Except PyExc Response × List FsEvent :=
  let r := with_open_json_load fs (os_path_join (DATA_DIR appDir) "marketSegmentation.json")
  (pyTry (r.1.map (fun v => { status := 200, body := Body.json v }))
    [(.FileNotFoundError, errorResponse "Data file not found" 404),
     (.JSONDecodeError, errorResponse "Error decoding JSON" 500)],
   r.2)

/-- Modelled from the spec: the template `index.html` is not part of the
source tree, and the spec places rendering out of scope with no failure
modes — `GET /` performs a scoped read and render of the single fixed
HTML template and returns HTTP 200 with the rendered markup. -/
def render_template (appDir : String) (template : String) :
    Except PyExc Response × List FsEvent :=
  let p := os_path_join (TEMPLATES_DIR appDir) template
  (.ok { status := 200, body := Body.page template }, [.opened p, .closed p])

/-- The root route handler `index`: renders index.html.  It receives the
filesystem like every handler but never consults the data files. -/
def index (appDir : String) (_fs : FileSystem) :
    Except PyExc Response × List FsEvent :=
  render_template appDir "index.html"

/-- The three resource names of the API. -/
inductive Resource where
  | marketShare
  | revenueTrends
  | marketSegmentation
deriving DecidableEq

/-- The name of a resource as it appears in routes and file names. -/
def Resource.name : Resource → String
  | .marketShare => "marketShare"
  | .revenueTrends => "revenueTrends"
  | .marketSegmentation => "marketSegmentation"

/-- Path of the backing file of a resource. -/
def resourcePath (appDir : String) (r : Resource) : String :=
  os_path_join (DATA_DIR appDir) (r.name ++ ".json")

/-- The routes of the application. -/
inductive Route where
  | root
  | api (r : Resource)
deriving DecidableEq

/-- The route table: which handler each route runs. -/
def dispatch (appDir : String) (fs : FileSystem) :
    Route → Except PyExc Response × List FsEvent
  | .root => index appDir fs
  | .api .marketShare => get_market_share appDir fs
  | .api .revenueTrends => get_revenue_trends appDir fs
  | .api .marketSegmentation => get_market_segmentation appDir fs

/-- Serving one request: a response the handler returns goes out as-is; an
exception the handler does not catch is converted by the framework into
its generic 500 Internal Server Error page.  Totality of this function is
the non-fatality of errors: every request, whatever the filesystem state,
yields a response and the process continues. -/
def serve (appDir : String) (fs : FileSystem) (rt : Route) : Response :=
  match (dispatch appDir fs rt).1 with
  | .ok resp => resp
  | .error _ => { status := 500, body := Body.errorHtml }

/-- The filesystem events serving one request performs. -/
def serveEvents (appDir : String) (fs : FileSystem) (rt : Route) :
    List FsEvent :=
  (dispatch appDir fs rt).2

/-- Effect of one filesystem event on the filesystem: only writes and
creations change it; opening and closing a file for reading change no
path. -/
def applyEvent (fs : FileSystem) : FsEvent → FileSystem
  | .opened _ => fs
  | .closed _ => fs
  | .wrote p text => fun q => if q = p then .content text else fs q
  | .created p => fun q => if q = p then .content "" else fs q

/-- Effect of a trace of filesystem events, applied left to right. -/
def applyEvents (fs : FileSystem) : List FsEvent → FileSystem
  | [] => fs
  | e :: es => applyEvents (applyEvent fs e) es

/-- A read-only event: opening or closing for read. -/
def FsEvent.readOnly : FsEvent → Bool
  | .opened _ => true
  | .closed _ => true
  | .wrote _ _ => false
  | .created _ => false

/-- Overwrite the state of one path. -/
def updateFs (fs : FileSystem) (p : String) (st : FileState) : FileSystem :=
  fun q => if q = p then st else fs q

/-! ## Serialization (the bytes `jsonify` puts on the wire) -/

/-- Lexicographic order on code-point strings: the order in which the
serializer sorts object keys (Flask passes sort_keys by default). -/
def keyLt : List Nat → List Nat → Bool
  | [], [] => false
  | [], _ :: _ => true
  | _ :: _, [] => false
  | a :: as, b :: bs => if a < b then true else if b < a then false else keyLt as bs

/-- Insert one pair into a key-sorted pair list. -/
def insertKey (p : List Nat × Json) :
    List (List Nat × Json) → List (List Nat × Json)
  | [] => [p]
  | q :: qs => if keyLt q.1 p.1 then q :: insertKey p qs else p :: q :: qs

/-- Sort object pairs by key. -/
def sortKvs : List (List Nat × Json) → List (List Nat × Json)
  | [] => []
  | p :: ps => insertKey p (sortKvs ps)

/-- Lowercase hexadecimal digit. -/
def hexDigitOut (n : Nat) : Nat :=
  if n < 10 then 48 + n else 87 + n

/-- Four lowercase hexadecimal digits, as in an emitted `\uXXXX`. -/
def hex4Out (n : Nat) : List Nat :=
  [hexDigitOut (n / 4096 % 16), hexDigitOut (n / 256 % 16),
   hexDigitOut (n / 16 % 16), hexDigitOut (n % 16)]

/-- ASCII-only escaping of one string code point, as the serializer
emits with its default ensure_ascii: the short escapes, `\uXXXX` for
other control and non-ASCII code points, and a surrogate pair above
the basic plane. -/
def escapeChar (c : Nat) : List Nat :=
  if c = 34 then [92, 34]
  else if c = 92 then [92, 92]
  else if c = 10 then [92, 110]
  else if c = 13 then [92, 114]
  else if c = 9 then [92, 116]
  else if c = 8 then [92, 98]
  else if c = 12 then [92, 102]
  else if c < 32 then 92 :: 117 :: hex4Out c
  else if c < 127 then [c]
  else if c < 0x10000 then 92 :: 117 :: hex4Out c
  else
    (92 :: 117 :: hex4Out (0xd800 + (c - 0x10000) / 1024)) ++
      (92 :: 117 :: hex4Out (0xdc00 + (c - 0x10000) % 1024))

/-- A serialized JSON string: quotes around the escaped code points. -/
def dumpStr (cs : List Nat) : List Nat :=
  [34] ++ (cs.map escapeChar).flatten ++ [34]

mutual

/-- Structural size of a JSON value, a fuel bound for the serializer. -/
def jsonSize : Json → Nat
  | .arr xs => 1 + jsonSizeArr xs
  | .obj kvs => 1 + jsonSizeObj kvs
  | _ => 1

def jsonSizeArr : List Json → Nat
  | [] => 1
  | x :: xs => 1 + jsonSize x + jsonSizeArr xs

def jsonSizeObj : List (List Nat × Json) → Nat
  | [] => 1
  | (_, v) :: kvs => 1 + jsonSize v + jsonSizeObj kvs

end

mutual

/-- Fuelled serializer body: one JSON value. -/
def dumpsF : Nat → Json → List Nat
  | 0, _ => []
  | fuel + 1, v =>
    match v with
    | .null => codes "null"
    | .bool true => codes "true"
    | .bool false => codes "false"
    | .int n => codes (toString n)
    | .float m e => codes (toString m) ++ [101] ++ codes (toString e)
    | .nan => codes "NaN"
    | .inf false => codes "Infinity"
    | .inf true => codes "-Infinity"
    | .str cs => dumpStr cs
    | .arr xs => [91] ++ dumpArrF fuel xs ++ [93]
    | .obj kvs => [123] ++ dumpObjF fuel (sortKvs kvs) ++ [125]

/-- Fuelled serializer body: array elements, comma-space separated. -/
def dumpArrF : Nat → List Json → List Nat
  | 0, _ => []
  | _ + 1, [] => []
  | fuel + 1, [x] => dumpsF fuel x
  | fuel + 1, x :: xs => dumpsF fuel x ++ [44, 32] ++ dumpArrF fuel xs

/-- Fuelled serializer body: object members, comma-space separated,
colon-space inside. -/
def dumpObjF : Nat → List (List Nat × Json) → List Nat
  | 0, _ => []
  | _ + 1, [] => []
  | fuel + 1, [(k, v)] => dumpStr k ++ [58, 32] ++ dumpsF fuel v
  | fuel + 1, (k, v) :: kvs =>
    dumpStr k ++ [58, 32] ++ dumpsF fuel v ++ [44, 32] ++ dumpObjF fuel kvs

end

/-- `json.dumps` with the jsonify defaults (sorted keys, ASCII-only
escaping, comma-space and colon-space separators): the serialization of
one JSON value as code points.  The fuel bound exceeds the recursion
depth reachable on the value.  Floats are emitted from the exact decimal
of the model; the repr Python applies to floats is not modelled, and no
claim compares serializations of distinct values. -/
def json_dumps (v : Json) : List Nat :=
  dumpsF (2 * jsonSize v + 2) v

/-- The body bytes of a response as put on the wire: a jsonify body is
its serialization plus the trailing newline the provider appends; the
rendered page is a fixed function of the template; the generic error page
is a fixed document. -/
def responseBytes (r : Response) : List Nat :=
  match r.body with
  | .json v => json_dumps v ++ [10]
  | .page t => codes t
  | .errorHtml => codes "Internal Server Error"

/-! ## The collapsed handler proposed by the spec -/

/-- Modelled from the spec (design note): one parameterized handler that
takes the resource name as an input validated against the fixed
enumerated set and runs the shared open-read-parse-respond logic; a name
outside the set has no route and yields no response. -/
def parameterized_handler (name appDir : String) (fs : FileSystem) :
    Option (Except PyExc Response × List FsEvent) :=
  if name = "marketShare" || name = "revenueTrends" || name = "marketSegmentation" then
    let r := with_open_json_load fs (os_path_join (DATA_DIR appDir) (name ++ ".json"))
    some (pyTry (r.1.map (fun v => { status := 200, body := Body.json v }))
      [(.FileNotFoundError, errorResponse "Data file not found" 404),
       (.JSONDecodeError, errorResponse "Error decoding JSON" 500)],
     r.2)
  else none

/-- The open-read-parse-respond logic every resource handler instantiates
at its own path: used to state that the three copies agree, not to define
them. -/
def sharedApiLogic (fs : FileSystem) (p : String) :
    Except PyExc Response × List FsEvent :=
  let r := with_open_json_load fs p
  (pyTry (r.1.map (fun v => { status := 200, body := Body.json v }))
    [(.FileNotFoundError, errorResponse "Data file not found" 404),
     (.JSONDecodeError, errorResponse "Error decoding JSON" 500)],
   r.2)

/-! ## Concrete fixtures -/

/-- The concrete document of the spec scenario. -/
def vendorText : String := "\x7b\"vendorA\": 40, \"vendorB\": 60\x7d"

/-- Its parse. -/
def vendorVal : Json :=
  Json.obj [(codes "vendorA", Json.int 40), (codes "vendorB", Json.int 60)]

/-- A filesystem holding the scenario document at every path. -/
def vendorFs : FileSystem := fun _ => FileState.content vendorText

/-- A filesystem with every path absent. -/
def absentFs : FileSystem := fun _ => FileState.absent

/-- A filesystem with every path unreadable for lack of permission. -/
def permFs : FileSystem := fun _ => FileState.permissionDenied

/-- A filesystem whose files hold the ill-formed text of the spec
scenario. -/
def badJsonFs : FileSystem := fun _ => FileState.content "\x7bbad json"

/-- A filesystem whose files are empty. -/
def emptyFs : FileSystem := fun _ => FileState.content ""

/-- A filesystem whose files hold a valid JSON value followed by trailing
non-whitespace text. -/
def trailingFs : FileSystem := fun _ => FileState.content "[1, 2] x"

/-! ## Helper lemmas -/

theorem string_append_cancel_left (s t u : String) (h : s ++ t = s ++ u) :
    t = u := by
  have h2 := congrArg String.data h
  simp [String.data_append] at h2
  exact String.ext h2

theorem os_path_join_inj (a x y : String) (hx : startsSlash x = false)
    (hy : startsSlash y = false) (h : os_path_join a x = os_path_join a y) :
    x = y := by
  unfold os_path_join at h
  rw [hx, hy] at h
  simp only [Bool.false_eq_true, if_false] at h
  split at h
  · exact string_append_cancel_left a x y h
  · exact string_append_cancel_left (a ++ "/") x y h

theorem resourcePath_injective (appDir : String) (r r' : Resource)
    (h : resourcePath appDir r = resourcePath appDir r') : r = r' := by
  cases r <;> cases r' <;> first
    | rfl
    | exact absurd
        (os_path_join_inj (DATA_DIR appDir) _ _ (by decide) (by decide) h)
        (by decide)

theorem dispatch_api_eq (appDir : String) (fs : FileSystem) (r : Resource) :
    dispatch appDir fs (Route.api r) = sharedApiLogic fs (resourcePath appDir r) := by
  cases r <;> rfl

theorem with_open_json_load_congr (fs fs' : FileSystem) (p : String)
    (h : fs p = fs' p) :
    with_open_json_load fs p = with_open_json_load fs' p := by
  unfold with_open_json_load
  rw [h]

theorem sharedApiLogic_congr (fs fs' : FileSystem) (p : String)
    (h : fs p = fs' p) : sharedApiLogic fs p = sharedApiLogic fs' p := by
  simp only [sharedApiLogic, with_open_json_load_congr fs fs' p h]

theorem serve_api (appDir : String) (fs : FileSystem) (r : Resource) :
    serve appDir fs (Route.api r) =
      (match (sharedApiLogic fs (resourcePath appDir r)).1 with
       | .ok resp => resp
       | .error _ => { status := 500, body := Body.errorHtml }) := by
  unfold serve
  rw [dispatch_api_eq]

theorem serve_content_parse_none (appDir : String) (fs : FileSystem)
    (r : Resource) (s : String)
    (h1 : fs (resourcePath appDir r) = FileState.content s)
    (h2 : parseJson (codes s) = none) :
    serve appDir fs (Route.api r) = errorResponse "Error decoding JSON" 500 := by
  rw [serve_api]
  simp only [sharedApiLogic, with_open_json_load, h1, h2]
  rfl

theorem serveEvents_api (appDir : String) (fs : FileSystem) (r : Resource) :
    serveEvents appDir fs (Route.api r) =
      (with_open_json_load fs (resourcePath appDir r)).2 := by
  show (dispatch appDir fs (Route.api r)).2 = _
  rw [dispatch_api_eq]
  rfl

theorem serve_frame (appDir : String) (fs : FileSystem) (rt : Route) :
    applyEvents fs (serveEvents appDir fs rt) = fs := by
  cases rt with
  | root => rfl
  | api r =>
    rw [serveEvents_api]
    cases hfs : fs (resourcePath appDir r) <;>
      simp [with_open_json_load, hfs, applyEvents, applyEvent]

theorem serveEvents_readOnly (appDir : String) (fs : FileSystem) (rt : Route) :
    (serveEvents appDir fs rt).all FsEvent.readOnly = true := by
  cases rt with
  | root => rfl
  | api r =>
    rw [serveEvents_api]
    cases hfs : fs (resourcePath appDir r) <;>
      simp [with_open_json_load, hfs, FsEvent.readOnly]

/-! ## Claims -/

/-- C1: for every resource name, if the backing file exists and its content
is well-formed JSON, `GET /api/<name>` returns status 200 and a body that
is exactly the JSON value stored in the file — no field added, removed, or
renamed in transit. -/
theorem c1_api_roundtrip (appDir : String) (fs : FileSystem) (r : Resource)
    (s : String) (v : Json)
    (h1 : fs (resourcePath appDir r) = FileState.content s)
    (h2 : parseJson (codes s) = some v) :
    serve appDir fs (Route.api r) = { status := 200, body := Body.json v } := by
  rw [serve_api]
  simp only [sharedApiLogic, with_open_json_load, h1, h2]
  rfl

/-- C1 witness: the concrete scenario of the spec, the market-share file
holding the two-vendor document. -/
theorem c1_api_roundtrip_witness :
    serve "" vendorFs (Route.api Resource.marketShare) =
      { status := 200, body := Body.json vendorVal } :=
  c1_api_roundtrip "" vendorFs Resource.marketShare vendorText vendorVal rfl rfl

/-- C2 counterexample: with the market-share file unreadable for lack of
permission, the endpoint does not return the 404 not-found response the
claim asserts — `except FileNotFoundError` does not catch PermissionError. -/
theorem c2_counterexample :
    ¬ (serve "" permFs (Route.api Resource.marketShare) =
        errorResponse "Data file not found" 404) := by
  intro h
  exact absurd (congrArg Response.status h) (by decide)

/-- C2 amended: an absent backing file yields 404 with the not-found body;
a permission failure is not caught by the handler — the PermissionError
propagates out of it and the framework turns it into the generic 500
error page, not the 404 JSON body. -/
theorem c2_amended_absent_404_permission_uncaught (appDir : String)
    (fs : FileSystem) (r : Resource) :
    (fs (resourcePath appDir r) = FileState.absent →
      serve appDir fs (Route.api r) = errorResponse "Data file not found" 404) ∧
    (fs (resourcePath appDir r) = FileState.permissionDenied →
      (dispatch appDir fs (Route.api r)).1 = Except.error PyExc.permissionError ∧
      serve appDir fs (Route.api r) = { status := 500, body := Body.errorHtml }) := by
  constructor
  · intro h
    rw [serve_api]
    simp only [sharedApiLogic, with_open_json_load, h]
    rfl
  · intro h
    have hd : (dispatch appDir fs (Route.api r)).1 = Except.error PyExc.permissionError := by
      rw [dispatch_api_eq]
      simp only [sharedApiLogic, with_open_json_load, h]
      rfl
    refine ⟨hd, ?_⟩
    unfold serve
    rw [hd]

/-- C2 amended witness: the absent case at the market-share route and the
permission case at the revenue-trends route, on concrete filesystems. -/
theorem c2_amended_witness :
    serve "" absentFs (Route.api Resource.marketShare) =
      errorResponse "Data file not found" 404 ∧
    (dispatch "" permFs (Route.api Resource.revenueTrends)).1 =
      Except.error PyExc.permissionError ∧
    serve "" permFs (Route.api Resource.revenueTrends) =
      { status := 500, body := Body.errorHtml } :=
  ⟨(c2_amended_absent_404_permission_uncaught "" absentFs Resource.marketShare).1 rfl,
   (c2_amended_absent_404_permission_uncaught "" permFs Resource.revenueTrends).2 rfl⟩

/-- C3: for every resource name, if the backing file exists and is readable
but its content is not well-formed JSON, `GET /api/<name>` returns status
500 with the decoding-error body. -/
theorem c3_invalid_json_500 (appDir : String) (fs : FileSystem) (r : Resource)
    (s : String)
    (h1 : fs (resourcePath appDir r) = FileState.content s)
    (h2 : parseJson (codes s) = none) :
    serve appDir fs (Route.api r) = errorResponse "Error decoding JSON" 500 :=
  serve_content_parse_none appDir fs r s h1 h2

/-- C3 witness: the ill-formed text of the spec scenario in the
market-segmentation file. -/
theorem c3_invalid_json_500_witness :
    serve "" badJsonFs (Route.api Resource.marketSegmentation) =
      errorResponse "Error decoding JSON" 500 :=
  c3_invalid_json_500 "" badJsonFs Resource.marketSegmentation "\x7bbad json" rfl rfl

/-- C4: `GET /` returns status 200 for every state of the data directory;
the root handler reads none of the resource files, so its response is the
same on any two filesystems. -/
theorem c4_index_200_independent (appDir : String) (fs fs' : FileSystem) :
    serve appDir fs Route.root = { status := 200, body := Body.page "index.html" } ∧
    serve appDir fs Route.root = serve appDir fs' Route.root :=
  ⟨rfl, rfl⟩

/-- C5: with the filesystem as it stands after one request (which the
request leaves unchanged), serving the same route again yields the same
response, and byte-for-byte the same serialized body. -/
theorem c5_idempotent (appDir : String) (fs : FileSystem) (rt : Route) :
    serve appDir (applyEvents fs (serveEvents appDir fs rt)) rt =
      serve appDir fs rt ∧
    responseBytes (serve appDir (applyEvents fs (serveEvents appDir fs rt)) rt) =
      responseBytes (serve appDir fs rt) := by
  rw [serve_frame]
  exact ⟨rfl, rfl⟩

/-- C6: the response of a resource endpoint depends only on its own backing
file — replacing the backing file of any other resource by any state
(absent, unreadable, or arbitrary content, well-formed or not) leaves the
response unchanged; the dispatcher stays total throughout. -/
theorem c6_noninterference (appDir : String) (fs : FileSystem)
    (x y : Resource) (st : FileState) (h : x ≠ y) :
    serve appDir (updateFs fs (resourcePath appDir x) st) (Route.api y) =
      serve appDir fs (Route.api y) := by
  have hagree : updateFs fs (resourcePath appDir x) st (resourcePath appDir y) =
      fs (resourcePath appDir y) := by
    unfold updateFs
    rw [if_neg]
    intro hq
    exact h (resourcePath_injective appDir y x hq).symm
  rw [serve_api, serve_api, sharedApiLogic_congr _ _ _ hagree]

/-- C6 witness: deleting the revenue-trends file leaves the market-share
response on the concrete scenario filesystem unchanged. -/
theorem c6_noninterference_witness :
    serve "" (updateFs vendorFs (resourcePath "" Resource.revenueTrends) FileState.absent)
        (Route.api Resource.marketShare) =
      serve "" vendorFs (Route.api Resource.marketShare) :=
  c6_noninterference "" vendorFs Resource.revenueTrends Resource.marketShare
    FileState.absent (by decide)

/-- C7: on every exit path of a resource handler, every file handle it
opened is closed later in its trace, before the response is produced. -/
theorem c7_handles_released (appDir : String) (fs : FileSystem) (r : Resource)
    (i : Nat) (p : String)
    (h : (serveEvents appDir fs (Route.api r)).get? i = some (FsEvent.opened p)) :
    ∃ j, i < j ∧
      (serveEvents appDir fs (Route.api r)).get? j = some (FsEvent.closed p) := by
  rw [serveEvents_api] at h ⊢
  unfold with_open_json_load at h ⊢
  cases hfs : fs (resourcePath appDir r) with
  | absent => rw [hfs] at h; simp at h
  | permissionDenied => rw [hfs] at h; simp at h
  | content text =>
    rw [hfs] at h
    cases i with
    | zero =>
      refine ⟨1, Nat.zero_lt_one, ?_⟩
      simp_all
    | succ i =>
      cases i with
      | zero => simp at h
      | succ i => simp at h

/-- C7 witness: on the concrete scenario filesystem the market-share
handler opens its backing file at step 0 and a later step closes it. -/
theorem c7_handles_released_witness :
    ∃ j, 0 < j ∧
      (serveEvents "" vendorFs (Route.api Resource.marketShare)).get? j =
        some (FsEvent.closed (resourcePath "" Resource.marketShare)) :=
  c7_handles_released "" vendorFs Resource.marketShare 0
    (resourcePath "" Resource.marketShare) rfl

/-- C8: every handler is read-only — its trace holds only read events (no
write, no creation), and replaying the trace against the filesystem leaves
every path unchanged; no other state is threaded through a request at all. -/
theorem c8_read_only (appDir : String) (fs : FileSystem) (rt : Route) :
    (serveEvents appDir fs rt).all FsEvent.readOnly = true ∧
    applyEvents fs (serveEvents appDir fs rt) = fs :=
  ⟨serveEvents_readOnly appDir fs rt, serve_frame appDir fs rt⟩

/-- C9: the single parameterized handler that validates the resource name
against the enumerated set and runs the shared logic is observably
equivalent to the route table of the three copy-pasted handlers: on each
of the three names it produces exactly the corresponding handler's outcome
and trace, and on every other name it has no route. -/
theorem c9_parameterized_equivalent :
    (∀ (appDir : String) (fs : FileSystem) (r : Resource),
      parameterized_handler (Resource.name r) appDir fs =
        some (dispatch appDir fs (Route.api r))) ∧
    (∀ (appDir : String) (fs : FileSystem) (name : String),
      name ≠ "marketShare" → name ≠ "revenueTrends" → name ≠ "marketSegmentation" →
      parameterized_handler name appDir fs = none) := by
  constructor
  · intro appDir fs r
    cases r <;> rfl
  · intro appDir fs name h1 h2 h3
    simp [parameterized_handler, h1, h2, h3]

/-- C9 witness: on the scenario filesystem, the parameterized handler at
the name marketShare agrees with the market-share route, and an unknown
name has no route. -/
theorem c9_parameterized_equivalent_witness :
    parameterized_handler "marketShare" "" vendorFs =
      some (dispatch "" vendorFs (Route.api Resource.marketShare)) ∧
    parameterized_handler "bogus" "" vendorFs = none :=
  ⟨c9_parameterized_equivalent.1 "" vendorFs Resource.marketShare,
   c9_parameterized_equivalent.2 "" vendorFs "bogus"
     (by decide) (by decide) (by decide)⟩

/-- C10: the handler parses the whole file content as a single JSON value:
when one value scans but non-whitespace text trails it, the endpoint
answers 500 with the decoding-error body rather than 200 on the valid
prefix, an empty file likewise answers 500, and the text of the trailing
scenario does scan to a value on its prefix. -/
theorem c10_whole_content :
    (∀ (appDir : String) (fs : FileSystem) (r : Resource) (s : String)
        (v : Json) (rest : List Nat),
      fs (resourcePath appDir r) = FileState.content s →
      scanTop (codes s) = some (v, rest) → dropWs rest ≠ [] →
      serve appDir fs (Route.api r) = errorResponse "Error decoding JSON" 500) ∧
    (∀ (appDir : String) (fs : FileSystem) (r : Resource),
      fs (resourcePath appDir r) = FileState.content "" →
      serve appDir fs (Route.api r) = errorResponse "Error decoding JSON" 500) ∧
    parseJson (codes "[1, 2]") = some (Json.arr [Json.int 1, Json.int 2]) := by
  refine ⟨?_, ?_, rfl⟩
  · intro appDir fs r s v rest h1 h2 h3
    refine serve_content_parse_none appDir fs r s h1 ?_
    unfold parseJson
    rw [h2]
    exact if_neg h3
  · intro appDir fs r h1
    exact serve_content_parse_none appDir fs r "" h1 rfl

/-- C10 witness: a file holding a valid JSON array followed by trailing
text answers 500, and an empty file answers 500. -/
theorem c10_whole_content_witness :
    serve "" trailingFs (Route.api Resource.marketShare) =
      errorResponse "Error decoding JSON" 500 ∧
    serve "" emptyFs (Route.api Resource.marketShare) =
      errorResponse "Error decoding JSON" 500 :=
  ⟨c10_whole_content.1 "" trailingFs Resource.marketShare "[1, 2] x"
     (Json.arr [Json.int 1, Json.int 2]) (codes " x") rfl rfl (by decide),
   c10_whole_content.2.1 "" emptyFs Resource.marketShare rfl⟩
